import Mathlib

/-!
Shallow embedding of the CP_DSSTox ETL program (load_data.py) together with
proofs about its value normalizers, identifier explosion, date and number
parsing, and the table import orchestration.  Cell values are modelled by
`Val`, tables by `DF`, the SQLite sink by `Sink` (committed rows plus the
pending rows of the open transaction), and Python exceptions by `PyErr`.
Machine floats are modelled exactly by rationals, which is faithful for the
decimal values the pipeline manipulates.
-/

deriving instance DecidableEq for Except

namespace CPDSSTox

/-- A cell value of an in-memory table: the Python value None (produced by
null normalization), the float NaN (produced by the pandas readers for
missing cells), a string, or a numeric value (produced by the composition
parser).  Numbers are modelled exactly by rationals. -/
inductive Val where
  | vNull : Val
  | vNan : Val
  | vStr (s : String) : Val
  | vNum (q : Rat) : Val
deriving DecidableEq, Repr

/-- Python exceptions arising on the modelled code paths.  systemExit is the
exception raised by exit(1); in Python it is not a subclass of Exception and
therefore escapes an except-Exception handler. -/
inductive PyErr where
  | attributeError : PyErr
  | keyError (c : String) : PyErr
  | valueError : PyErr
  | programmingError : PyErr
  | systemExit (code : Nat) : PyErr
deriving DecidableEq, Repr

/-- The exit code carried by a SystemExit, none for ordinary exceptions. -/
def PyErr.exitCode : PyErr → Option Nat
  | .systemExit c => some c
  | _ => none

/-- A pandas DataFrame: an ordered list of column names and an ordered list
of rows, each row an ordered list of cells aligned with the columns. -/
structure DF where
  cols : List String
  rows : List (List Val)
deriving DecidableEq, Repr

/-- One row of the Identifier cross-reference table produced by
explode_identifiers. -/
structure IdRow where
  identifier : String
  casrn : String
  alternative_identifier : String
deriving DecidableEq, Repr

/-- pd.notnull: false exactly on None and NaN. -/
def pdNotNull : Val → Bool
  | .vNull => false
  | .vNan => false
  | _ => true

/-- Whitespace characters stripped by the Python str.strip default and
matched by a regex whitespace class (ASCII subset). -/
def isPySpace (c : Char) : Bool :=
  c = ' ' || c = '\t' || c = '\n' || c = '\r' || c = '\x0b' || c = '\x0c'

/-- Python str.strip with no argument: drop leading and trailing
whitespace. -/
def pyStrip (l : List Char) : List Char :=
  (((l.dropWhile isPySpace).reverse).dropWhile isPySpace).reverse

/-- str.strip lifted to String. -/
def pyStripS (s : String) : String :=
  String.mk (pyStrip s.data)

/-- Python str.split with a one-character separator: splitting the empty
string yields a single empty field, and consecutive separators yield empty
fields. -/
def pySplit (sep : Char) : List Char → List (List Char)
  | [] => [[]]
  | c :: cs =>
    let r := pySplit sep cs
    if c = sep then [] :: r
    else
      match r with
      | [] => [[c]]
      | h :: t => (c :: h) :: t

/-- Python str(x) for the cell values reaching it in the modelled code.
String cells pass through; str(None) and str(nan) are the literal spellings
Python produces.  Numeric cells never reach str on the verified paths; the
rendering of a rational stands in for the float repr. -/
def pyStr : Val → String
  | .vNull => "None"
  | .vNan => "nan"
  | .vStr s => s
  | .vNum q => toString q.num ++ "/" ++ toString q.den

/-- Cell-level null normalization: df.replace on one cell, sending the empty
string and the literal NA to None and leaving every other value alone. -/
def replaceCell (v : Val) : Val :=
  if v = .vStr "" ∨ v = .vStr "NA" then .vNull else v

/-- load_data.replace_empty_na_with_null: df.replace applied to every cell
of the record set. -/
def replace_empty_na_with_null (df : DF) : DF :=
  ⟨df.cols, df.rows.map (List.map replaceCell)⟩

/-- df.where(pd.notnull(df), None) on one cell: null-like values become
None, everything else is kept. -/
def whereNotNullCell (v : Val) : Val :=
  match v with
  | .vNan => .vNull
  | .vNull => .vNull
  | x => x

/-- df.where(pd.notnull(df), None) over a record set. -/
def where_notnull (df : DF) : DF :=
  ⟨df.cols, df.rows.map (List.map whereNotNullCell)⟩

/-- Numeric value of a digit character. -/
def dVal (c : Char) : Nat := c.toNat - '0'.toNat

/-- Digit test used by the parsers. -/
def isDigitC (c : Char) : Bool := '0' ≤ c && c ≤ '9'

/-- Value of a digit list read in base ten. -/
def digitsVal (l : List Char) : Nat :=
  l.foldl (fun a c => 10 * a + dVal c) 0

/-- Exponent tail of a Python float literal: an optional sign followed by
one or more digits, ending the string. -/
def parseExpTail (l : List Char) : Option Int :=
  match l with
  | '+' :: t =>
    let (ds, rest) := t.span isDigitC
    if ds = [] || rest ≠ [] then none else some (digitsVal ds)
  | '-' :: t =>
    let (ds, rest) := t.span isDigitC
    if ds = [] || rest ≠ [] then none else some (-(digitsVal ds : Int))
  | t =>
    let (ds, rest) := t.span isDigitC
    if ds = [] || rest ≠ [] then none else some (digitsVal ds)

/-- Apply a base-ten exponent to a mantissa-and-scale pair: the pair
(n, k) denotes the number n divided by ten to the k. -/
def scaleExp (m k : Nat) (e : Int) : Nat × Nat :=
  if 0 ≤ e then (m * 10 ^ e.toNat, k) else (m, k + (-e).toNat)

/-- Body of a Python float literal after stripping whitespace and sign:
digits with an optional fractional part and an optional exponent.  At least
one digit must appear around the decimal point.  The result pair (n, k)
denotes n divided by ten to the k. -/
def parseFloatBody (l : List Char) : Option (Nat × Nat) :=
  let (ip, r1) := l.span isDigitC
  let (fp, r2) :=
    match r1 with
    | '.' :: t => t.span isDigitC
    | _ => ([], r1)
  if ip = [] && fp = [] then none
  else
    let m := digitsVal ip * 10 ^ fp.length + digitsVal fp
    match r2 with
    | [] => some (m, fp.length)
    | 'e' :: t => (parseExpTail t).map (scaleExp m fp.length)
    | 'E' :: t => (parseExpTail t).map (scaleExp m fp.length)
    | _ => none

/-- The rational denoted by a sign and a mantissa-and-scale pair. -/
def decToRat (neg : Bool) (p : Nat × Nat) : Rat :=
  mkRat (if neg then -(p.1 : Int) else (p.1 : Int)) (10 ^ p.2)

/-- Python float(s) on a string: strip whitespace, read an optional sign and
a decimal literal with optional exponent; none models the ValueError raised
on any other input.  The special spellings inf and nan and digit-group
underscores are outside the data modelled here. -/
def pyFloat (s : String) : Option Rat :=
  match pyStrip s.data with
  | '+' :: t => (parseFloatBody t).map (decToRat false)
  | '-' :: t => (parseFloatBody t).map (decToRat true)
  | t => (parseFloatBody t).map (decToRat false)

/-- load_data.to_float: None or NaN input gives None; a string is converted
with str(value).strip(), then either parsed directly or, when it contains a
percent sign, parsed after removing every percent sign and divided by 100;
a failed parse (ValueError) gives None.  A numeric input round-trips through
str and float, so it is returned unchanged. -/
def to_float (v : Val) : Option Rat :=
  match v with
  | .vNull => none
  | .vNan => none
  | .vNum q => some q
  | .vStr s =>
    let vs := pyStrip s.data
    if '%' ∈ vs then
      (pyFloat (String.mk (vs.filter (fun c => c ≠ '%')))).map (fun q => q / 100)
    else
      pyFloat (String.mk vs)

/-- A strptime directive of the format strings used by parse_date: four
digit year, two digit year, numeric month, numeric day, full month name,
abbreviated month name, a literal character, or a run of whitespace (a
literal space in a Python format string matches one or more whitespace
characters). -/
inductive Dir where
  | dY : Dir
  | dy : Dir
  | dm : Dir
  | dd : Dir
  | dB : Dir
  | db : Dir
  | lit (c : Char) : Dir
  | sp : Dir
deriving DecidableEq, Repr

/-- Accumulated year, month and day fields while matching a format. -/
structure StAcc where
  yy : Option Nat := none
  mm : Option Nat := none
  dd : Option Nat := none
deriving DecidableEq, Repr

/-- Full month names, lowercase, with their numbers. -/
def monthsFull : List (List Char × Nat) :=
  [("january".data, 1), ("february".data, 2), ("march".data, 3),
   ("april".data, 4), ("may".data, 5), ("june".data, 6), ("july".data, 7),
   ("august".data, 8), ("september".data, 9), ("october".data, 10),
   ("november".data, 11), ("december".data, 12)]

/-- Abbreviated month names, lowercase, with their numbers. -/
def monthsAbbr : List (List Char × Nat) :=
  [("jan".data, 1), ("feb".data, 2), ("mar".data, 3), ("apr".data, 4),
   ("may".data, 5), ("jun".data, 6), ("jul".data, 7), ("aug".data, 8),
   ("sep".data, 9), ("oct".data, 10), ("nov".data, 11), ("dec".data, 12)]

/-- Case-insensitive match of one month name from a table against a prefix
of the input, returning the month number and the rest of the input.  No
name in either table is a prefix of another, so the first hit is the only
hit. -/
def matchName : List (List Char × Nat) → List Char → Option (Nat × List Char)
  | [], _ => none
  | (nm, v) :: rest, l =>
    if (l.take nm.length).map Char.toLower = nm then some (v, l.drop nm.length)
    else matchName rest l

/-- Match of the numeric month directive, following the regex alternation
1[0-2]|0[1-9]|[1-9] that Python compiles for it: a two digit month is
preferred, otherwise a single nonzero digit. -/
def matchMonthNum (l : List Char) : Option (Nat × List Char)
  := match l with
  | c1 :: c2 :: rest =>
    if c1 = '1' && ('0' ≤ c2 && c2 ≤ '2') then some (10 + dVal c2, rest)
    else if c1 = '0' && ('1' ≤ c2 && c2 ≤ '9') then some (dVal c2, rest)
    else if '1' ≤ c1 && c1 ≤ '9' then some (dVal c1, c2 :: rest)
    else none
  | [c1] => if '1' ≤ c1 && c1 ≤ '9' then some (dVal c1, []) else none
  | [] => none

/-- Match of the numeric day directive, following the regex alternation
3[01]|[12]\d|0[1-9]|[1-9]. -/
def matchDayNum (l : List Char) : Option (Nat × List Char)
  := match l with
  | c1 :: c2 :: rest =>
    if c1 = '3' && (c2 = '0' || c2 = '1') then some (30 + dVal c2, rest)
    else if (c1 = '1' || c1 = '2') && isDigitC c2 then
      some (10 * dVal c1 + dVal c2, rest)
    else if c1 = '0' && ('1' ≤ c2 && c2 ≤ '9') then some (dVal c2, rest)
    else if '1' ≤ c1 && c1 ≤ '9' then some (dVal c1, c2 :: rest)
    else none
  | [c1] => if '1' ≤ c1 && c1 ≤ '9' then some (dVal c1, []) else none
  | [] => none

/-- Python mapping of a two digit year: 0 to 68 land in the 2000s, 69 to 99
in the 1900s. -/
def yearOf2 (n : Nat) : Nat :=
  if n ≤ 68 then 2000 + n else 1900 + n

/-- Match one directive against a prefix of the input, updating the
accumulated fields. -/
def stepDir (a : StAcc) : Dir → List Char → Option (StAcc × List Char)
  | .dY, c1 :: c2 :: c3 :: c4 :: rest =>
    if isDigitC c1 && isDigitC c2 && isDigitC c3 && isDigitC c4 then
      some ({ a with yy := some (digitsVal [c1, c2, c3, c4]) }, rest)
    else none
  | .dY, _ => none
  | .dy, c1 :: c2 :: rest =>
    if isDigitC c1 && isDigitC c2 then
      some ({ a with yy := some (yearOf2 (digitsVal [c1, c2])) }, rest)
    else none
  | .dy, _ => none
  | .dm, l => (matchMonthNum l).map (fun p => ({ a with mm := some p.1 }, p.2))
  | .dd, l => (matchDayNum l).map (fun p => ({ a with dd := some p.1 }, p.2))
  | .dB, l => (matchName monthsFull l).map (fun p => ({ a with mm := some p.1 }, p.2))
  | .db, l => (matchName monthsAbbr l).map (fun p => ({ a with mm := some p.1 }, p.2))
  | .lit c, c1 :: rest => if c1 = c then some (a, rest) else none
  | .lit _, [] => none
  | .sp, l =>
    let (ws, rest) := l.span isPySpace
    if ws = [] then none else some (a, rest)

/-- Match a whole format against the whole input; Python rejects the match
if any input remains after the last directive. -/
def runDirs : StAcc → List Dir → List Char → Option StAcc
  | a, [], [] => some a
  | _, [], _ :: _ => none
  | a, f :: fs, l =>
    match stepDir a f l with
    | none => none
    | some (a', l') => runDirs a' fs l'

/-- A parsed calendar date. -/
structure YMD where
  y : Nat
  m : Nat
  d : Nat
deriving DecidableEq, Repr

/-- Gregorian leap year test. -/
def isLeap (y : Nat) : Bool :=
  y % 4 = 0 && (y % 100 ≠ 0 || y % 400 = 0)

/-- Days in a month of a given year. -/
def daysInMonth (y m : Nat) : Nat :=
  if m = 2 then (if isLeap y then 29 else 28)
  else if m = 4 || m = 6 || m = 9 || m = 11 then 30
  else 31

/-- datetime.strptime against one format: match the directives, default the
missing fields (year 1900, month 1, day 1), then let the datetime
constructor validate the calendar date; none models the ValueError raised
on a failed match or an invalid date. -/
def strptimeYMD (f : List Dir) (l : List Char) : Option YMD :=
  match runDirs {} f l with
  | none => none
  | some a =>
    let y := a.yy.getD 1900
    let m := a.mm.getD 1
    let d := a.dd.getD 1
    if 1 ≤ y ∧ y ≤ 9999 ∧ 1 ≤ m ∧ m ≤ 12 ∧ 1 ≤ d ∧ d ≤ daysInMonth y m then
      some ⟨y, m, d⟩
    else none

/-- Digit character of a value below ten. -/
def digitChar (n : Nat) : Char := Char.ofNat ('0'.toNat + n)

/-- Two digit zero-padded rendering. -/
def pad2 (n : Nat) : String :=
  String.mk [digitChar (n / 10 % 10), digitChar (n % 10)]

/-- Four digit zero-padded rendering. -/
def pad4 (n : Nat) : String :=
  String.mk [digitChar (n / 1000 % 10), digitChar (n / 100 % 10),
             digitChar (n / 10 % 10), digitChar (n % 10)]

/-- strftime with the fixed output format: the canonical YYYY-MM-DD
rendering of a date. -/
def toISO (x : YMD) : String :=
  pad4 x.y ++ "-" ++ pad2 x.m ++ "-" ++ pad2 x.d

/-- Format %Y-%m-%d. -/
def fmt01 : List Dir := [.dY, .lit '-', .dm, .lit '-', .dd]

/-- Format %d-%m-%Y. -/
def fmt02 : List Dir := [.dd, .lit '-', .dm, .lit '-', .dY]

/-- Format %d-%b-%y. -/
def fmt03 : List Dir := [.dd, .lit '-', .db, .lit '-', .dy]

/-- Format %d-%b-%Y. -/
def fmt04 : List Dir := [.dd, .lit '-', .db, .lit '-', .dY]

/-- Format %d-%B-%Y. -/
def fmt05 : List Dir := [.dd, .lit '-', .dB, .lit '-', .dY]

/-- Format %B-%y. -/
def fmt06 : List Dir := [.dB, .lit '-', .dy]

/-- Format %b-%y. -/
def fmt07 : List Dir := [.db, .lit '-', .dy]

/-- Format %B %d, %Y. -/
def fmt08 : List Dir := [.dB, .sp, .dd, .lit ',', .sp, .dY]

/-- Format %B %Y. -/
def fmt09 : List Dir := [.dB, .sp, .dY]

/-- Format %Y. -/
def fmt10 : List Dir := [.dY]

/-- Format %d/%m/%Y. -/
def fmt11 : List Dir := [.dd, .lit '/', .dm, .lit '/', .dY]

/-- Format %m/%d/%Y. -/
def fmt12 : List Dir := [.dm, .lit '/', .dd, .lit '/', .dY]

/-- Format %d %B %Y. -/
def fmt13 : List Dir := [.dd, .sp, .dB, .sp, .dY]

/-- Format %m.%d.%Y. -/
def fmt14 : List Dir := [.dm, .lit '.', .dd, .lit '.', .dY]

/-- The fixed, ordered list of formats tried by parse_date. -/
def date_formats : List (List Dir) :=
  [fmt01, fmt02, fmt03, fmt04, fmt05, fmt06, fmt07, fmt08, fmt09, fmt10,
   fmt11, fmt12, fmt13, fmt14]

/-- Try the formats in order; the first one that parses wins and its date is
rendered in the canonical form. -/
def firstISO : List (List Dir) → List Char → Option String
  | [], _ => none
  | f :: fs, l =>
    match strptimeYMD f l with
    | some x => some (toISO x)
    | none => firstISO fs l

/-- load_data.parse_date: strip the input and try the fixed format list in
order, returning the first canonical rendering or None when every format
fails.  The two caught exception classes make the function total: a None or
NaN or numeric argument has no strip attribute, so every format attempt
raises AttributeError and the loop falls through to None. -/
def parse_date (v : Val) : Option String :=
  match v with
  | .vStr s => firstISO date_formats (pyStrip s.data)
  | _ => none

/-- The cell of a row at a column index; the default is never reached for
rows aligned with the column list. -/
def cellAt (i : Nat) (r : List Val) : Val :=
  r.getD i .vNull

/-- The identifier rows contributed by one DSSTox row: the value is passed
through str, split on the pipe, the first token stripped as the primary,
and one cross-reference row is emitted for every further token. -/
def idRowsOf (i : Nat) (r : List Val) : List IdRow :=
  let ids := pySplit '|' (pyStr (cellAt i r)).data
  let casrn := String.mk (pyStrip (ids.headD []))
  (ids.drop 1).map (fun t => ⟨casrn, casrn, String.mk (pyStrip t)⟩)

/-- The column rewrite of one DSSTox row: the identifier cell must be a
string (split is an attribute of str only, so None, NaN or a number raises
AttributeError) and is replaced by its first pipe token, stripped. -/
def primaryRewrite (i : Nat) (r : List Val) : Except PyErr (List Val) :=
  match cellAt i r with
  | .vStr s =>
    .ok (r.set i (.vStr (String.mk (pyStrip ((pySplit '|' s.data).headD [])))))
  | _ => .error .attributeError

/-- The Series.apply pass of explode_identifiers over the identifier
column: the first failing cell raises and aborts the pass. -/
def rewriteRows (i : Nat) : List (List Val) → Except PyErr (List (List Val))
  | [] => .ok []
  | r :: rs =>
    match primaryRewrite i r with
    | .error e => .error e
    | .ok r2 =>
      match rewriteRows i rs with
      | .error e => .error e
      | .ok rs2 => .ok (r2 :: rs2)

/-- load_data.explode_identifiers: a first pass over the rows collects the
cross-reference rows (through str, so it never raises on a non-string), a
second pass rewrites the identifier column to the first token of each value
(without str, so a non-string cell raises AttributeError).  A missing
IDENTIFIER column raises KeyError on either pass. -/
def explode_identifiers (df : DF) : Except PyErr (DF × List IdRow) :=
  match df.cols.findIdx? (fun c => c = "IDENTIFIER") with
  | none => .error (.keyError "IDENTIFIER")
  | some i =>
    let idrows := (df.rows.map (idRowsOf i)).flatten
    match rewriteRows i df.rows with
    | .error e => .error e
    | .ok rows2 => .ok (⟨df.cols, rows2⟩, idrows)

/-- Rewrite one named column of a record set with a cell function; reading a
missing column raises KeyError. -/
def convertCol (df : DF) (c : String) (f : Val → Val) : Except PyErr DF :=
  match df.cols.findIdx? (fun x => x = c) with
  | none => .error (.keyError c)
  | some i => .ok ⟨df.cols, df.rows.map (fun r => r.set i (f (cellAt i r)))⟩

/-- The cell-level action of convert_dates: a non-null value is parsed, a
null is kept as None, and a failed parse becomes None. -/
def dateCell (v : Val) : Val :=
  match parse_date v with
  | some s => .vStr s
  | none => .vNull

/-- load_data.convert_dates: canonicalize one date column in place. -/
def convert_dates (df : DF) (c : String) : Except PyErr DF :=
  convertCol df c dateCell

/-- The cell-level action of convert_compositions: to_float, with a failed
or null conversion stored as None. -/
def floatCell (v : Val) : Val :=
  match to_float v with
  | some q => .vNum q
  | none => .vNull

/-- load_data.convert_compositions: convert the three raw composition
columns, in the fixed column order of the source. -/
def convert_compositions (df : DF) : Except PyErr DF := do
  let d1 ← convertCol df "raw_min_comp" floatCell
  let d2 ← convertCol d1 "raw_central_comp" floatCell
  convertCol d2 "raw_max_comp" floatCell

/-- The SQLite sink seen through one connection: rows made durable by a
commit, and the pending rows of the open transaction. -/
structure Sink where
  committed : List (String × List Val)
  pending : List (String × List Val)
deriving DecidableEq, Repr

/-- The empty sink of a freshly created database. -/
def sink0 : Sink := ⟨[], []⟩

/-- cursor.execute of one parameterized INSERT: the row joins the open
transaction. -/
def execIns (t : String) (r : List Val) (s : Sink) : Sink :=
  { s with pending := s.pending ++ [(t, r)] }

/-- conn.commit: the open transaction becomes durable. -/
def commitS (s : Sink) : Sink :=
  ⟨s.committed ++ s.pending, []⟩

/-- Rollback of the open transaction, performed by the connection context
manager when an exception escapes the with block. -/
def rollbackS (s : Sink) : Sink :=
  ⟨s.committed, []⟩

/-- The row-by-row insertion loop of an import strategy: each row is bound
to the fixed placeholder list of the table; a row whose width differs from
the placeholder count raises ProgrammingError and aborts the remaining rows
of the loop, keeping the rows already executed in the open transaction. -/
def insertLoop (t : String) (ar : Nat) : Sink → List (List Val) → Sink × Option PyErr
  | s, [] => (s, none)
  | s, r :: rs =>
    if r.length = ar then insertLoop t ar (execIns t r s) rs
    else (s, some .programmingError)

/-- An insertion loop followed by conn.commit, the common shape of the
dictionary and fact import strategies. -/
def loopThenCommit (t : String) (ar : Nat) (s : Sink) (rows : List (List Val)) :
    Sink × Option PyErr :=
  match insertLoop t ar s rows with
  | (s1, some e) => (s1, some e)
  | (s1, none) => (commitS s1, none)

/-- load_data.document_dictionary_import_data: canonicalize doc_date, then
insert the four columns row by row and commit. -/
def document_dictionary_import_data (s : Sink) (df : DF) : Sink × Option PyErr :=
  match convert_dates df "doc_date" with
  | .error e => (s, some e)
  | .ok d2 => loopThenCommit "document_dictionary" 4 s d2.rows

/-- load_data.chemical_dictionary_import_data. -/
def chemical_dictionary_import_data (s : Sink) (df : DF) : Sink × Option PyErr :=
  loopThenCommit "chemical_dictionary" 7 s df.rows

/-- load_data.QSUR_data_import_data. -/
def QSUR_data_import_data (s : Sink) (df : DF) : Sink × Option PyErr :=
  loopThenCommit "QSUR_data" 5 s df.rows

/-- load_data.product_composition_data_import_data: convert the composition
columns, then insert the fourteen columns row by row and commit. -/
def product_composition_data_import_data (s : Sink) (df : DF) : Sink × Option PyErr :=
  match convert_compositions df with
  | .error e => (s, some e)
  | .ok d2 => loopThenCommit "product_composition_data" 14 s d2.rows

/-- load_data.list_presence_dictionary_import_data. -/
def list_presence_dictionary_import_data (s : Sink) (df : DF) : Sink × Option PyErr :=
  loopThenCommit "list_presence_dictionary" 4 s df.rows

/-- load_data.list_presence_data_import_data. -/
def list_presence_data_import_data (s : Sink) (df : DF) : Sink × Option PyErr :=
  loopThenCommit "list_presence_data" 3 s df.rows

/-- load_data.HHE_data_import_data. -/
def HHE_data_import_data (s : Sink) (df : DF) : Sink × Option PyErr :=
  loopThenCommit "HHE_data" 2 s df.rows

/-- load_data.functional_use_dictionary_import_data. -/
def functional_use_dictionary_import_data (s : Sink) (df : DF) : Sink × Option PyErr :=
  loopThenCommit "functional_use_dictionary" 4 s df.rows

/-- load_data.functional_use_data_import_data. -/
def functional_use_data_import_data (s : Sink) (df : DF) : Sink × Option PyErr :=
  loopThenCommit "functional_use_data" 3 s df.rows

/-- load_data.PUC_dictionary_import_data. -/
def PUC_dictionary_import_data (s : Sink) (df : DF) : Sink × Option PyErr :=
  loopThenCommit "PUC_dictionary" 7 s df.rows

/-- The three-column tuple bound for one Identifier cross-reference row. -/
def idRowTuple (r : IdRow) : List Val :=
  [.vStr r.identifier, .vStr r.casrn, .vStr r.alternative_identifier]

/-- load_data.Identifier_import_data: insert the cross-reference rows and
commit. -/
def Identifier_import_data (s : Sink) (rows : List IdRow) : Sink × Option PyErr :=
  loopThenCommit "Identifier" 3 s (rows.map idRowTuple)

/-- load_data.DSSTox_import_data: explode the identifiers, replace the
remaining NaN cells by None, insert the twelve DSSTox columns row by row,
then import the cross-reference rows (which commits), and commit again. -/
def DSSTox_import_data (s : Sink) (df : DF) : Sink × Option PyErr :=
  match explode_identifiers df with
  | .error e => (s, some e)
  | .ok (dfx, ids) =>
    match insertLoop "DSSTox" 12 s (where_notnull dfx).rows with
    | (s1, some e) => (s1, some e)
    | (s1, none) =>
      match Identifier_import_data s1 ids with
      | (s2, some e) => (s2, some e)
      | (s2, none) => (commitS s2, none)

/-- Console reporting of the orchestration layer. -/
inductive LogEntry where
  | success (t : String) : LogEntry
  | failure (t : String) (e : PyErr) : LogEntry
  | notImported (t : String) : LogEntry
deriving DecidableEq, Repr

/-- The success message printed at the end of import_table_data, reached
only when the dispatched strategy returns without an exception. -/
def reportOutcome (t : String) : Sink × Option PyErr → Sink × List LogEntry × Option PyErr
  | (s, none) => (s, [.success t], none)
  | (s, some e) => (s, [], some e)

/-- load_data.import_table_data: dispatch on the table name through the
fixed conditional chain of the source; an unrecognized name prints a
message and raises SystemExit through exit(1). -/
def import_table_data (t : String) (s : Sink) (df : DF) :
    Sink × List LogEntry × Option PyErr :=
  if t = "document_dictionary" then reportOutcome t (document_dictionary_import_data s df)
  else if t = "chemical_dictionary" then reportOutcome t (chemical_dictionary_import_data s df)
  else if t = "list_presence_dictionary" then reportOutcome t (list_presence_dictionary_import_data s df)
  else if t = "PUC_dictionary" then reportOutcome t (PUC_dictionary_import_data s df)
  else if t = "functional_use_dictionary" then reportOutcome t (functional_use_dictionary_import_data s df)
  else if t = "DSSTox" then reportOutcome t (DSSTox_import_data s df)
  else if t = "QSUR_data" then reportOutcome t (QSUR_data_import_data s df)
  else if t = "functional_use_data" then reportOutcome t (functional_use_data_import_data s df)
  else if t = "product_composition_data" then reportOutcome t (product_composition_data_import_data s df)
  else if t = "list_presence_data" then reportOutcome t (list_presence_data_import_data s df)
  else if t = "HHE_data" then reportOutcome t (HHE_data_import_data s df)
  else (s, [.notImported t], some (.systemExit 1))

/-- The inner loop of import_data_to_DB over the record sets of one table:
each record set is null-normalized and handed to import_table_data; an
exception aborts the remaining record sets of the table. -/
def importDFList (t : String) : Sink → List DF → Sink × List LogEntry × Option PyErr
  | s, [] => (s, [], none)
  | s, df :: dfs =>
    match import_table_data t s (replace_empty_na_with_null df) with
    | (s1, l1, some e) => (s1, l1, some e)
    | (s1, l1, none) =>
      match importDFList t s1 dfs with
      | (s2, l2, e2) => (s2, l1 ++ l2, e2)

/-- The table loop of import_data_to_DB: an ordinary exception of one table
is caught by the except-Exception handler, printed with the table name, and
the loop proceeds to the next table; a SystemExit escapes the handler and
aborts the loop, carrying its exit code. -/
def import_data_to_DB_loop : List (String × List DF) → Sink → Sink × List LogEntry × Option Nat
  | [], s => (s, [], none)
  | (t, dfs) :: rest, s =>
    match importDFList t s dfs with
    | (s1, l1, none) =>
      match import_data_to_DB_loop rest s1 with
      | (s2, l2, x) => (s2, l1 ++ l2, x)
    | (s1, l1, some e) =>
      match e.exitCode with
      | some c => (s1, l1, some c)
      | none =>
        match import_data_to_DB_loop rest s1 with
        | (s2, l2, x) => (s2, (l1 ++ [.failure t e]) ++ l2, x)

/-- load_data.import_data_to_DB: the table loop inside the connection
context manager, which commits any open transaction on a clean exit and
rolls it back when a SystemExit escapes. -/
def import_data_to_DB (data : List (String × List DF)) (s : Sink) :
    Sink × List LogEntry × Option Nat :=
  match import_data_to_DB_loop data s with
  | (s1, l, none) => (commitS s1, l, none)
  | (s1, l, some c) => (rollbackS s1, l, some c)

/-- load_data.parse_file_paths with every expected file present on disk, in
which case the existence check removes nothing: the insertion order of the
defaultdict, which is the iteration order of every later phase.  The
thirteen DSSTox workbooks are appended first, then one delimited file per
remaining table, in the literal order of the source lines. -/
def parse_file_paths (data_dir : String) : List (String × List String) :=
  [("DSSTox", (List.range 13).map
      (fun i => data_dir ++ "/DSSToxDump" ++ toString (i + 1) ++ ".xlsx")),
   ("document_dictionary", [data_dir ++ "/document_dictionary_20201216.csv"]),
   ("chemical_dictionary", [data_dir ++ "/chemical_dictionary_20201216.csv"]),
   ("list_presence_data", [data_dir ++ "/list_presence_data_20201216.csv"]),
   ("PUC_dictionary", [data_dir ++ "/PUC_dictionary_20201216.csv"]),
   ("functional_use_dictionary", [data_dir ++ "/functional_use_dictionary_20201216.csv"]),
   ("QSUR_data", [data_dir ++ "/QSUR_data_20201216.csv"]),
   ("functional_use_data", [data_dir ++ "/functional_use_data_20201216.csv"]),
   ("product_composition_data", [data_dir ++ "/product_composition_data_20201216.csv"]),
   ("list_presence_dictionary", [data_dir ++ "/list_presence_dictionary_20201216.csv"]),
   ("HHE_data", [data_dir ++ "/HHE_data_20201216.csv"])]

/-- load_data.extract_data, parameterized by the file reader: each path of
each table is loaded in order, an empty record set terminates the program
(modelled by none), and the table order of the input mapping is kept. -/
def extract_data (load : String → DF) : List (String × List String) → Option (List (String × List DF))
  | [] => some []
  | (t, ps) :: rest =>
    let dfs := ps.map load
    if dfs.any (fun d => d.rows.isEmpty) then none
    else (extract_data load rest).map (fun r => (t, dfs) :: r)

/-- The string content of the cell at a column index, read under the
assumption that the cell is a string. -/
def strAt (i : Nat) (r : List Val) : String :=
  match cellAt i r with
  | .vStr s => s
  | _ => ""

/-- The first pipe token of a compound identifier, stripped of surrounding
whitespace: the primary identifier of the specification. -/
def firstTok (s : String) : String :=
  String.mk (pyStrip ((pySplit '|' s.data).headD []))

/-- The additional pipe tokens of a compound identifier, each stripped: the
alternative identifiers of the specification. -/
def altToks (s : String) : List String :=
  ((pySplit '|' s.data).drop 1).map (fun t => String.mk (pyStrip t))

/-- Append a list of rows to the open transaction, the effect of a fully
successful insertion loop. -/
def appendAll (t : String) (s : Sink) (rows : List (List Val)) : Sink :=
  rows.foldl (fun sk r => execIns t r sk) s

/-- The sink grew monotonically: the committed rows of the first sink are a
prefix of the committed rows of the second. -/
def SinkExt (s s' : Sink) : Prop :=
  ∃ l, s'.committed = s.committed ++ l

/-- Directives that bind the month field. -/
def setsMonth : Dir → Bool
  | .dm => true
  | .dB => true
  | .db => true
  | _ => false

/-- Directives that bind the day field. -/
def setsDay : Dir → Bool
  | .dd => true
  | _ => false

/-- Formalisation of the per-table order stated by the specification, for
the chemical-substance table, to be compared with the source order: the
table-specific transform runs first on the raw record set, null
normalization runs after it and immediately before insertion. -/
def DSSTox_import_transform_first (s : Sink) (df : DF) : Sink × Option PyErr :=
  match explode_identifiers df with
  | .error e => (s, some e)
  | .ok (dfx, ids) =>
    match insertLoop "DSSTox" 12 s
        (replace_empty_na_with_null (where_notnull dfx)).rows with
    | (s1, some e) => (s1, some e)
    | (s1, none) =>
      match Identifier_import_data s1 ids with
      | (s2, some e) => (s2, some e)
      | (s2, none) => (commitS s2, none)

/-- The column list of the DSSTox insert statement. -/
def dsstoxCols : List String :=
  ["DTXSID", "PREFERRED_NAME", "CASRN", "INCHIKEY", "IUPAC_NAME", "SMILES",
   "MOLECULAR_FORMULA", "AVERAGE_MASS", "MONOISOTOPIC_MASS",
   "QSAR_READY_SMILES", "MS_READY_SMILES", "IDENTIFIER"]

/-- A chemical-substance record set whose single row carries the literal NA
as its compound identifier. -/
def dssNAdf : DF :=
  ⟨dsstoxCols,
   [[.vStr "DTX1", .vStr "formaldehyde", .vStr "50-00-0", .vStr "IK", .vStr "iupac",
     .vStr "C=O", .vStr "CH2O", .vStr "30.03", .vStr "30.01", .vStr "C=O",
     .vStr "C=O", .vStr "NA"]]⟩

/-- A chemical-substance record set whose single row carries an empty
string as its compound identifier. -/
def dssEmptyIdent : DF :=
  ⟨dsstoxCols,
   [[.vStr "DTX2", .vStr "x", .vStr "x", .vStr "x", .vStr "x",
     .vStr "x", .vStr "x", .vStr "x", .vStr "x", .vStr "x",
     .vStr "x", .vStr ""]]⟩

/-- A row of the given width filled with a constant string cell. -/
def rowOf (n : Nat) : List Val :=
  List.replicate n (.vStr "x")

/-- Demonstration record sets, one per destination table, each accepted by
its import strategy; the date and composition cells are empty strings,
which normalization sends to None. -/
def demoDF : String → DF
  | "DSSTox" => ⟨dsstoxCols, [rowOf 11 ++ [.vStr "50-00-0|ALT-1"]]⟩
  | "document_dictionary" =>
    ⟨["document_id", "title", "subtitle", "doc_date"],
     [[.vStr "d1", .vStr "t", .vStr "s", .vStr ""]]⟩
  | "product_composition_data" =>
    ⟨["document_id", "product_id", "chemical_id", "functional_use_id", "puc_id",
      "classification", "prod_title", "brand_name", "raw_min_comp",
      "raw_central_comp", "raw_max_comp", "clean_min_wf", "clean_central_wf",
      "clean_max_wf"],
     [rowOf 8 ++ [.vStr "", .vStr "", .vStr ""] ++ rowOf 3]⟩
  | "chemical_dictionary" => ⟨[], [rowOf 7]⟩
  | "PUC_dictionary" => ⟨[], [rowOf 7]⟩
  | "QSUR_data" => ⟨[], [rowOf 5]⟩
  | "functional_use_dictionary" => ⟨[], [rowOf 4]⟩
  | "list_presence_dictionary" => ⟨[], [rowOf 4]⟩
  | "functional_use_data" => ⟨[], [rowOf 3]⟩
  | "list_presence_data" => ⟨[], [rowOf 3]⟩
  | "HHE_data" => ⟨[], [rowOf 2]⟩
  | _ => ⟨[], []⟩

/-- A full-run input carrying one demonstration record set per table, keyed
and ordered exactly as parse_file_paths orders the tables. -/
def demoData : List (String × List DF) :=
  (parse_file_paths "data").map (fun p => (p.1, [demoDF p.1]))

/-- A two-column record set used to instantiate the explosion
characterization at a concrete input. -/
def c4DemoDF : DF :=
  ⟨["IDENTIFIER", "CASRN"], [[.vStr " a | b ", .vStr "c"]]⟩

/-- A two-row record set used to instantiate the frame property of the
explosion at a concrete input. -/
def frameDemoDF : DF :=
  ⟨["IDENTIFIER", "X"], [[.vStr "p|q", .vStr "keep"], [.vStr "r", .vStr "s"]]⟩

/-- A malformed HHE record set: three cells per row against the two
placeholders of the HHE insert, raising ProgrammingError. -/
def hheBadDF : DF :=
  ⟨[], [rowOf 3]⟩

/-- A well-formed chemical-dictionary record set. -/
def chemGoodDF : DF :=
  ⟨[], [rowOf 7]⟩

/-- The position of a table name in an import order. -/
def posOf (t : String) (l : List String) : Nat :=
  l.findIdx (fun x => x = t)

/-- The import order of the production run: the key order of the mapping
built by parse_file_paths, which extract_data and import_data_to_DB both
preserve. -/
def importOrder : List String :=
  (parse_file_paths "data").map Prod.fst

theorem cellAt_of_get? {r : List Val} {i : Nat} {v : Val} (h : r.get? i = some v) :
    cellAt i r = v := by
  unfold cellAt
  rw [List.getD_eq_getElem?_getD, ← List.get?_eq_getElem?, h]
  rfl

theorem replaceCell_idem (v : Val) : replaceCell (replaceCell v) = replaceCell v := by
  unfold replaceCell
  by_cases h : v = .vStr "" ∨ v = .vStr "NA" <;> simp [h]

/-- C7: null normalization sends exactly the empty-string and NA cells to
None (cell-wise over the whole record set, keeping shape), leaves every
other cell unchanged, and is idempotent. -/
theorem replace_empty_na_spec :
    (∀ df : DF, (replace_empty_na_with_null df).cols = df.cols ∧
      (replace_empty_na_with_null df).rows.length = df.rows.length)
    ∧ (∀ s : String, s = "" ∨ s = "NA" → replaceCell (.vStr s) = .vNull)
    ∧ (∀ v : Val, v ≠ .vStr "" → v ≠ .vStr "NA" → replaceCell v = v)
    ∧ (∀ (df : DF) (k j : Nat) (v : Val), (df.rows.getD k [])[j]? = some v →
        ((replace_empty_na_with_null df).rows.getD k [])[j]? = some (replaceCell v))
    ∧ (∀ df : DF, replace_empty_na_with_null (replace_empty_na_with_null df) =
        replace_empty_na_with_null df) := by
  refine ⟨?_, ?_, ?_, ?_, ?_⟩
  · intro df
    exact ⟨rfl, by simp [replace_empty_na_with_null]⟩
  · intro s h
    unfold replaceCell
    rcases h with h | h <;> simp [h]
  · intro v h1 h2
    unfold replaceCell
    rw [if_neg]
    rintro (h | h) <;> [exact h1 h; exact h2 h]
  · intro df k j v h
    unfold replace_empty_na_with_null
    rcases hk : df.rows[k]? with _ | r
    · rw [List.getD_eq_getElem?_getD, hk] at h
      simp at h
    · have hk2 : (df.rows.map (List.map replaceCell))[k]? = some (r.map replaceCell) := by
        rw [List.getElem?_map, hk]
        rfl
      rw [List.getD_eq_getElem?_getD, hk] at h
      rw [List.getD_eq_getElem?_getD, hk2]
      simp only [Option.getD_some] at h ⊢
      rw [List.getElem?_map, h]
      rfl
  · intro df
    unfold replace_empty_na_with_null
    simp only [List.map_map]
    have hc : (List.map replaceCell ∘ List.map replaceCell) =
        (List.map replaceCell : List Val → List Val) := by
      funext r
      simp only [Function.comp_apply, List.map_map, Function.comp_def]
      exact List.map_congr_left (fun v _ => replaceCell_idem v)
    rw [hc]

/-- C7 witness: the normalization clauses applied at concrete cells and at
one cell of a concrete record set. -/
theorem replace_empty_na_witness :
    replaceCell (.vStr "NA") = .vNull
    ∧ replaceCell (.vStr "x") = .vStr "x"
    ∧ ((replace_empty_na_with_null
          ⟨["a", "b"], [[.vStr "", .vStr "y"]]⟩).rows.getD 0 [])[1]? =
        some (replaceCell (.vStr "y")) := by
  refine ⟨replace_empty_na_spec.2.1 "NA" (Or.inr rfl),
    replace_empty_na_spec.2.2.1 (.vStr "x") (by decide) (by decide),
    replace_empty_na_spec.2.2.2.1 ⟨["a", "b"], [[.vStr "", .vStr "y"]]⟩ 0 1
      (.vStr "y") (by decide)⟩

/-- C5: percentage-aware numeric parsing sends null to null, divides by one
hundred after removing the percent signs when one is present, parses a
plain decimal otherwise, turns every failed parse into null, and maps the
concrete inputs of the specification accordingly. -/
theorem to_float_spec :
    to_float .vNull = none
    ∧ to_float .vNan = none
    ∧ (∀ (s : String) (q : Rat), '%' ∈ pyStrip s.data →
        pyFloat (String.mk ((pyStrip s.data).filter (fun c => c ≠ '%'))) = some q →
        to_float (.vStr s) = some (q / 100))
    ∧ (∀ s : String, '%' ∈ pyStrip s.data →
        pyFloat (String.mk ((pyStrip s.data).filter (fun c => c ≠ '%'))) = none →
        to_float (.vStr s) = none)
    ∧ (∀ s : String, ¬ '%' ∈ pyStrip s.data →
        to_float (.vStr s) = pyFloat (String.mk (pyStrip s.data)))
    ∧ to_float (.vStr "45%") = some (45 / 100)
    ∧ to_float (.vStr "0.45") = some (45 / 100)
    ∧ to_float (.vStr "abc") = none := by
  refine ⟨rfl, rfl, ?_, ?_, ?_, ?_, ?_, by decide⟩
  · intro s q hin hp
    simp only [to_float]
    rw [if_pos hin, hp]
    rfl
  · intro s hin hp
    simp only [to_float]
    rw [if_pos hin, hp]
    rfl
  · intro s hin
    simp only [to_float]
    rw [if_neg hin]
  · have h : to_float (.vStr "45%") = some (mkRat 45 (10 ^ 0) / 100) := rfl
    rw [h]
    norm_num [Rat.mkRat_eq_divInt, Rat.divInt_eq_div]
  · have h : to_float (.vStr "0.45") = some (mkRat 45 (10 ^ 2)) := by decide
    rw [h]
    norm_num [Rat.mkRat_eq_divInt, Rat.divInt_eq_div]

/-- C5 witness: the general percent and failure clauses applied at concrete
inputs. -/
theorem to_float_spec_witness :
    to_float (.vStr " 7% ") = some (7 / 100)
    ∧ to_float (.vStr "x%") = none
    ∧ to_float (.vStr "12") = pyFloat "12" := by
  refine ⟨?_, ?_, ?_⟩
  · have h := to_float_spec.2.2.1 " 7% " 7 (by decide) (by decide)
    exact h
  · exact to_float_spec.2.2.2.1 "x%" (by decide) (by decide)
  · exact to_float_spec.2.2.2.2.1 "12" (by decide)

theorem strAt_of_cell {i : Nat} {r : List Val} {s : String}
    (hc : cellAt i r = .vStr s) : strAt i r = s := by
  unfold strAt
  rw [hc]

theorem primaryRewrite_str {i : Nat} {r : List Val} {s : String}
    (hc : cellAt i r = .vStr s) :
    primaryRewrite i r = .ok (r.set i (.vStr (firstTok s))) := by
  unfold primaryRewrite firstTok
  rw [hc]

theorem rewriteRows_ok (i : Nat) (rows : List (List Val))
    (hs : ∀ r ∈ rows, ∃ s, r.get? i = some (Val.vStr s)) :
    rewriteRows i rows =
      .ok (rows.map (fun r => r.set i (.vStr (firstTok (strAt i r))))) := by
  induction rows with
  | nil => rfl
  | cons r rs ih =>
    obtain ⟨s, hsr⟩ := hs r (by simp)
    have hc : cellAt i r = .vStr s := cellAt_of_get? hsr
    have hih := ih (fun r h => hs r (List.mem_cons_of_mem _ h))
    simp only [rewriteRows, primaryRewrite_str hc, hih, List.map_cons,
      strAt_of_cell hc]

theorem idRowsOf_str {i : Nat} {r : List Val} {s : String}
    (hc : cellAt i r = .vStr s) :
    idRowsOf i r = (altToks s).map (fun a => ⟨firstTok s, firstTok s, a⟩) := by
  unfold idRowsOf altToks firstTok
  rw [hc]
  simp only [pyStr, List.map_map, Function.comp_def]

theorem explode_identifiers_ok (df : DF) (i : Nat)
    (hi : df.cols.findIdx? (fun c => c = "IDENTIFIER") = some i)
    (hs : ∀ r ∈ df.rows, ∃ s, r.get? i = some (Val.vStr s)) :
    explode_identifiers df = .ok
      (⟨df.cols, df.rows.map (fun r => r.set i (.vStr (firstTok (strAt i r))))⟩,
       (df.rows.map (idRowsOf i)).flatten) := by
  simp only [explode_identifiers, hi, rewriteRows_ok i df.rows hs]

/-- C4: on a record set whose identifier cells are strings, the explosion
replaces each identifier by its first pipe token stripped of whitespace and
emits one cross-reference row per additional token, carrying the primary
token as both identifier and CASRN and the stripped additional token as
the alternative identifier; the two concrete inputs of the specification
behave accordingly. -/
theorem explode_identifiers_spec :
    (∀ (df : DF) (i : Nat), df.cols.findIdx? (fun c => c = "IDENTIFIER") = some i →
      (∀ r ∈ df.rows, ∃ s, r.get? i = some (Val.vStr s)) →
      explode_identifiers df = .ok
        (⟨df.cols, df.rows.map (fun r => r.set i (.vStr (firstTok (strAt i r))))⟩,
         (df.rows.map (fun r => (altToks (strAt i r)).map
            (fun a => ⟨firstTok (strAt i r), firstTok (strAt i r), a⟩))).flatten))
    ∧ explode_identifiers ⟨["IDENTIFIER"], [[.vStr "50-00-0|CAS-ALT-1|CAS-ALT-2"]]⟩ =
        .ok (⟨["IDENTIFIER"], [[.vStr "50-00-0"]]⟩,
             [⟨"50-00-0", "50-00-0", "CAS-ALT-1"⟩, ⟨"50-00-0", "50-00-0", "CAS-ALT-2"⟩])
    ∧ explode_identifiers ⟨["IDENTIFIER"], [[.vStr "50-00-0"]]⟩ =
        .ok (⟨["IDENTIFIER"], [[.vStr "50-00-0"]]⟩, []) := by
  refine ⟨?_, by decide, by decide⟩
  intro df i hi hs
  rw [explode_identifiers_ok df i hi hs]
  have hrows : df.rows.map (idRowsOf i) =
      df.rows.map (fun r => (altToks (strAt i r)).map
        (fun a => ⟨firstTok (strAt i r), firstTok (strAt i r), a⟩)) := by
    refine List.map_congr_left (fun r hr => ?_)
    obtain ⟨s, hsr⟩ := hs r hr
    have hc : cellAt i r = .vStr s := cellAt_of_get? hsr
    rw [idRowsOf_str hc, strAt_of_cell hc]
  rw [hrows]

/-- C4 witness: the characterization applied to a concrete record set with
a second column and surrounding whitespace in the tokens. -/
theorem explode_identifiers_spec_witness :
    explode_identifiers c4DemoDF =
      .ok (⟨["IDENTIFIER", "CASRN"], [[.vStr "a", .vStr "c"]]⟩, [⟨"a", "a", "b"⟩]) := by
  have h := explode_identifiers_spec.1 c4DemoDF 0 (by decide) ?_
  · exact h.trans (by decide)
  · intro r hr
    simp only [c4DemoDF, List.mem_singleton] at hr
    subst hr
    exact ⟨" a | b ", rfl⟩

/-- C9: on a record set whose identifier cells are strings, the explosion
returns an updated record set with the same columns, the same number of
rows in the same order, and every cell outside the identifier column
unchanged. -/
theorem explode_frame_effect (df : DF) (i : Nat)
    (hi : df.cols.findIdx? (fun c => c = "IDENTIFIER") = some i)
    (hs : ∀ r ∈ df.rows, ∃ s, r.get? i = some (Val.vStr s)) :
    ∃ df2 ids, explode_identifiers df = .ok (df2, ids)
      ∧ df2.cols = df.cols
      ∧ df2.rows.length = df.rows.length
      ∧ ∀ k j, j ≠ i → (df2.rows.getD k [])[j]? = (df.rows.getD k [])[j]? := by
  refine ⟨_, _, explode_identifiers_ok df i hi hs, rfl, by simp, ?_⟩
  intro k j hj
  rcases hk : df.rows[k]? with _ | r
  · have hk2 : (df.rows.map
        (fun r => r.set i (.vStr (firstTok (strAt i r)))))[k]? = none := by
      rw [List.getElem?_map, hk]
      rfl
    rw [List.getD_eq_getElem?_getD, List.getD_eq_getElem?_getD, hk, hk2]
  · have hk2 : (df.rows.map
        (fun r => r.set i (.vStr (firstTok (strAt i r)))))[k]? =
        some (r.set i (.vStr (firstTok (strAt i r)))) := by
      rw [List.getElem?_map, hk]
      rfl
    rw [List.getD_eq_getElem?_getD, List.getD_eq_getElem?_getD, hk, hk2]
    simp only [Option.getD_some]
    exact List.getElem?_set_ne (Ne.symm hj)

/-- C9 witness: the frame property applied to a concrete two-row record
set. -/
theorem explode_frame_effect_witness :
    ∃ df2 ids, explode_identifiers frameDemoDF = .ok (df2, ids)
      ∧ df2.cols = frameDemoDF.cols
      ∧ df2.rows.length = frameDemoDF.rows.length
      ∧ ∀ k j, j ≠ 0 →
          (df2.rows.getD k [])[j]? = (frameDemoDF.rows.getD k [])[j]? := by
  refine explode_frame_effect frameDemoDF 0 (by decide) ?_
  intro r hr
  simp only [frameDemoDF, List.mem_cons, List.mem_singleton, List.not_mem_nil,
    or_false] at hr
  rcases hr with hr | hr <;> subst hr
  · exact ⟨"p|q", rfl⟩
  · exact ⟨"r", rfl⟩

/-- C3: a null compound identifier makes the explosion raise
AttributeError rather than yield an empty token list: the column rewrite
applies split to the cell without the str coercion of the first pass; the
same exception surfaces when the pipeline hands the DSSTox import a record
set whose identifier cell was normalized to None. -/
theorem explode_null_identifier_raises :
    explode_identifiers ⟨["IDENTIFIER"], [[Val.vNull]]⟩ = .error .attributeError
    ∧ explode_identifiers ⟨["IDENTIFIER"], [[Val.vNan]]⟩ = .error .attributeError
    ∧ (importDFList "DSSTox" sink0 [dssEmptyIdent]).2.2 = some .attributeError := by
  exact ⟨by decide, by decide, by decide⟩

theorem firstISO_none (fs : List (List Dir)) (l : List Char)
    (h : ∀ f ∈ fs, strptimeYMD f l = none) : firstISO fs l = none := by
  induction fs with
  | nil => rfl
  | cons f fs ih =>
    simp only [firstISO, h f (by simp)]
    exact ih (fun g hg => h g (List.mem_cons_of_mem _ hg))

theorem firstISO_first (pre : List (List Dir)) (f : List Dir)
    (suf : List (List Dir)) (l : List Char) (x : YMD)
    (hpre : ∀ g ∈ pre, strptimeYMD g l = none)
    (hf : strptimeYMD f l = some x) :
    firstISO (pre ++ f :: suf) l = some (toISO x) := by
  induction pre with
  | nil => simp only [List.nil_append, firstISO, hf]
  | cons g gs ih =>
    simp only [List.cons_append, firstISO, hpre g (by simp)]
    exact ih (fun g' hg => hpre g' (List.mem_cons_of_mem _ hg))

theorem firstISO_some (fs : List (List Dir)) (l : List Char) (r : String)
    (h : firstISO fs l = some r) :
    ∃ f ∈ fs, ∃ x, strptimeYMD f l = some x ∧ r = toISO x := by
  induction fs with
  | nil => exact absurd h (by simp [firstISO])
  | cons f fs ih =>
    rcases hf : strptimeYMD f l with _ | x
    · simp only [firstISO, hf] at h
      obtain ⟨g, hg, x, hx, hr⟩ := ih h
      exact ⟨g, List.mem_cons_of_mem _ hg, x, hx, hr⟩
    · simp only [firstISO, hf] at h
      exact ⟨f, by simp, x, hf, (Option.some.inj h).symm⟩

theorem daysInMonth_le (y m : Nat) : daysInMonth y m ≤ 31 := by
  unfold daysInMonth
  split_ifs <;> omega

theorem strptimeYMD_bounds {f : List Dir} {l : List Char} {x : YMD}
    (h : strptimeYMD f l = some x) :
    1 ≤ x.y ∧ x.y ≤ 9999 ∧ 1 ≤ x.m ∧ x.m ≤ 12 ∧ 1 ≤ x.d ∧ x.d ≤ 31 := by
  unfold strptimeYMD at h
  rcases hr : runDirs {} f l with _ | a
  · rw [hr] at h
    exact absurd h (by simp)
  · rw [hr] at h
    dsimp only at h
    split_ifs at h with hc
    obtain ⟨h1, h2, h3, h4, h5, h6⟩ := hc
    cases h
    exact ⟨h1, h2, h3, h4, h5, le_trans h6 (daysInMonth_le _ _)⟩

theorem stepDir_dY_acc {a a' : StAcc} {l l' : List Char}
    (h : stepDir a .dY l = some (a', l')) : a'.mm = a.mm ∧ a'.dd = a.dd := by
  rcases l with _ | ⟨c1, l⟩
  · exact absurd h (by simp [stepDir])
  rcases l with _ | ⟨c2, l⟩
  · exact absurd h (by simp [stepDir])
  rcases l with _ | ⟨c3, l⟩
  · exact absurd h (by simp [stepDir])
  rcases l with _ | ⟨c4, rest⟩
  · exact absurd h (by simp [stepDir])
  simp only [stepDir] at h
  split_ifs at h
  cases h
  exact ⟨rfl, rfl⟩

theorem stepDir_dB_acc {a a' : StAcc} {l l' : List Char}
    (h : stepDir a .dB l = some (a', l')) : a'.dd = a.dd ∧ a'.yy = a.yy := by
  simp only [stepDir] at h
  rcases hm : matchName monthsFull l with _ | ⟨v, rest⟩
  · rw [hm] at h
    exact absurd h (by simp)
  · rw [hm] at h
    simp only [Option.map_some'] at h
    cases h
    exact ⟨rfl, rfl⟩

theorem stepDir_sp_acc {a a' : StAcc} {l l' : List Char}
    (h : stepDir a .sp l = some (a', l')) : a' = a := by
  simp only [stepDir] at h
  rcases hsp : l.span isPySpace with ⟨ws, rest⟩
  rw [hsp] at h
  dsimp only at h
  split_ifs at h
  cases h
  rfl

theorem strptime_fmt10_defaults {l : List Char} {x : YMD}
    (h : strptimeYMD fmt10 l = some x) : x.m = 1 ∧ x.d = 1 := by
  unfold strptimeYMD fmt10 at h
  rcases hr : runDirs {} [Dir.dY] l with _ | a
  · rw [hr] at h
    exact absurd h (by simp)
  rw [hr] at h
  dsimp only at h
  simp only [runDirs] at hr
  rcases hs1 : stepDir {} Dir.dY l with _ | ⟨a1, l1⟩
  · rw [hs1] at hr
    exact absurd hr (by simp)
  rw [hs1] at hr
  dsimp only at hr
  rcases l1 with _ | ⟨c, l1⟩
  · simp only [runDirs] at hr
    cases hr
    obtain ⟨e1, e2⟩ := stepDir_dY_acc hs1
    split_ifs at h
    cases h
    refine ⟨?_, ?_⟩
    · rw [e1]
      rfl
    · rw [e2]
      rfl
  · simp only [runDirs] at hr
    exact absurd hr (by simp)

theorem strptime_fmt09_day {l : List Char} {x : YMD}
    (h : strptimeYMD fmt09 l = some x) : x.d = 1 := by
  unfold strptimeYMD fmt09 at h
  rcases hr : runDirs {} [Dir.dB, Dir.sp, Dir.dY] l with _ | a
  · rw [hr] at h
    exact absurd h (by simp)
  rw [hr] at h
  dsimp only at h
  simp only [runDirs] at hr
  rcases hs1 : stepDir {} Dir.dB l with _ | ⟨a1, l1⟩
  · rw [hs1] at hr
    exact absurd hr (by simp)
  rw [hs1] at hr
  dsimp only at hr
  rcases hs2 : stepDir a1 Dir.sp l1 with _ | ⟨a2, l2⟩
  · rw [hs2] at hr
    exact absurd hr (by simp)
  rw [hs2] at hr
  dsimp only at hr
  rcases hs3 : stepDir a2 Dir.dY l2 with _ | ⟨a3, l3⟩
  · rw [hs3] at hr
    exact absurd hr (by simp)
  rw [hs3] at hr
  dsimp only at hr
  rcases l3 with _ | ⟨c, l3⟩
  · simp only [runDirs] at hr
    cases hr
    have e1 := (stepDir_dB_acc hs1).1
    have e2 := stepDir_sp_acc hs2
    have e3 := (stepDir_dY_acc hs3).2
    split_ifs at h
    cases h
    rw [e3, e2, e1]
    rfl
  · simp only [runDirs] at hr
    exact absurd hr (by simp)

/-- C6: date canonicalization returns null on a null input and on a string
matched by no format; when at least one format matches, the first matching
format of the fixed priority list determines the canonical output, so an
ambiguous string such as 01-02-2020 resolves deterministically to the
day-month-year reading. -/
theorem parse_date_first_match :
    parse_date .vNull = none
    ∧ (∀ s : String, (∀ f ∈ date_formats, strptimeYMD f (pyStrip s.data) = none) →
        parse_date (.vStr s) = none)
    ∧ (∀ (s : String) (pre f suf) (x : YMD), date_formats = pre ++ f :: suf →
        (∀ g ∈ pre, strptimeYMD g (pyStrip s.data) = none) →
        strptimeYMD f (pyStrip s.data) = some x →
        parse_date (.vStr s) = some (toISO x))
    ∧ parse_date (.vStr "01-02-2020") = some "2020-02-01"
    ∧ parse_date (.vStr "not-a-date") = none := by
  refine ⟨rfl, ?_, ?_, by decide, by decide⟩
  · intro s h
    exact firstISO_none date_formats (pyStrip s.data) h
  · intro s pre f suf x heq hpre hf
    show firstISO date_formats (pyStrip s.data) = some (toISO x)
    rw [heq]
    exact firstISO_first pre f suf _ x hpre hf

/-- C6 witness: the no-format clause applied to a concrete unparseable
string and the first-match clause applied to an ambiguous concrete date,
which the second format resolves after the first fails. -/
theorem parse_date_first_match_witness :
    parse_date (.vStr "zzz") = none
    ∧ parse_date (.vStr "02-01-2020") = some "2020-01-02" := by
  constructor
  · exact parse_date_first_match.2.1 "zzz" (by decide)
  · have h := parse_date_first_match.2.2.1 "02-01-2020" [fmt01] fmt02
      [fmt03, fmt04, fmt05, fmt06, fmt07, fmt08, fmt09, fmt10, fmt11, fmt12,
       fmt13, fmt14] ⟨2020, 1, 2⟩ rfl (by decide) (by decide)
    rw [h]
    decide

/-- C10: a bare four digit year and a month-year string both canonicalize
with the omitted components defaulted to their minimum, every successful
parse is the canonical rendering of a valid calendar date, and the
year-only and month-year formats bind no month or day field, which the
defaulting then sends to one. -/
theorem parse_date_defaults :
    parse_date (.vStr "2020") = some "2020-01-01"
    ∧ parse_date (.vStr "January 2020") = some "2020-01-01"
    ∧ (∀ (v : Val) (r : String), parse_date v = some r →
        ∃ x : YMD, 1 ≤ x.y ∧ x.y ≤ 9999 ∧ 1 ≤ x.m ∧ x.m ≤ 12 ∧ 1 ≤ x.d ∧
          x.d ≤ 31 ∧ r = toISO x)
    ∧ (∀ (l : List Char) (x : YMD), strptimeYMD fmt10 l = some x →
        x.m = 1 ∧ x.d = 1)
    ∧ (∀ (l : List Char) (x : YMD), strptimeYMD fmt09 l = some x → x.d = 1) := by
  refine ⟨by decide, by decide, ?_, fun l x h => strptime_fmt10_defaults h,
    fun l x h => strptime_fmt09_day h⟩
  intro v r h
  match v with
  | .vNull => exact absurd h (by simp [parse_date])
  | .vNan => exact absurd h (by simp [parse_date])
  | .vNum q => exact absurd h (by simp [parse_date])
  | .vStr s =>
    obtain ⟨f, hf, x, hx, hr⟩ := firstISO_some date_formats (pyStrip s.data) r h
    obtain ⟨h1, h2, h3, h4, h5, h6⟩ := strptimeYMD_bounds hx
    exact ⟨x, h1, h2, h3, h4, h5, h6, hr⟩

/-- C10 witness: the three quantified clauses applied at the concrete year
2020 inputs. -/
theorem parse_date_defaults_witness :
    (∃ x : YMD, 1 ≤ x.y ∧ x.y ≤ 9999 ∧ 1 ≤ x.m ∧ x.m ≤ 12 ∧ 1 ≤ x.d ∧
      x.d ≤ 31 ∧ "2020-01-01" = toISO x)
    ∧ ((⟨2020, 1, 1⟩ : YMD).m = 1 ∧ (⟨2020, 1, 1⟩ : YMD).d = 1)
    ∧ (⟨2020, 1, 1⟩ : YMD).d = 1 := by
  refine ⟨parse_date_defaults.2.2.1 (.vStr "2020") "2020-01-01" (by decide),
    parse_date_defaults.2.2.2.1 "2020".data ⟨2020, 1, 1⟩ (by decide),
    parse_date_defaults.2.2.2.2 "January 2020".data ⟨2020, 1, 1⟩ (by decide)⟩

theorem insertLoop_committed (t : String) (ar : Nat) (s : Sink)
    (rows : List (List Val)) :
    ((insertLoop t ar s rows).1).committed = s.committed := by
  induction rows generalizing s with
  | nil => rfl
  | cons r rs ih =>
    simp only [insertLoop]
    split_ifs
    · exact ih _
    · rfl

theorem SinkExt_refl (s : Sink) : SinkExt s s :=
  ⟨[], by simp⟩

theorem SinkExt_trans {a b c : Sink} (h1 : SinkExt a b) (h2 : SinkExt b c) :
    SinkExt a c := by
  obtain ⟨l1, e1⟩ := h1
  obtain ⟨l2, e2⟩ := h2
  exact ⟨l1 ++ l2, by rw [e2, e1, List.append_assoc]⟩

theorem commitS_ext (s : Sink) : SinkExt s (commitS s) :=
  ⟨s.pending, rfl⟩

theorem loopThenCommit_ext (t : String) (ar : Nat) (s : Sink)
    (rows : List (List Val)) : SinkExt s (loopThenCommit t ar s rows).1 := by
  unfold loopThenCommit
  rcases hl : insertLoop t ar s rows with ⟨s1, e⟩
  have hc : s1.committed = s.committed := by
    have h2 := insertLoop_committed t ar s rows
    rw [hl] at h2
    exact h2
  rcases e with _ | e
  · exact ⟨s1.pending, by simp [commitS, hc]⟩
  · exact ⟨[], by simp [hc]⟩

theorem Identifier_ext (s : Sink) (rows : List IdRow) :
    SinkExt s (Identifier_import_data s rows).1 :=
  loopThenCommit_ext _ _ _ _

theorem document_dictionary_ext (s : Sink) (df : DF) :
    SinkExt s (document_dictionary_import_data s df).1 := by
  unfold document_dictionary_import_data
  rcases convert_dates df "doc_date" with e | d2
  · exact SinkExt_refl s
  · exact loopThenCommit_ext _ _ _ _

theorem product_composition_ext (s : Sink) (df : DF) :
    SinkExt s (product_composition_data_import_data s df).1 := by
  unfold product_composition_data_import_data
  rcases convert_compositions df with e | d2
  · exact SinkExt_refl s
  · exact loopThenCommit_ext _ _ _ _

theorem DSSTox_ext (s : Sink) (df : DF) :
    SinkExt s (DSSTox_import_data s df).1 := by
  unfold DSSTox_import_data
  rcases explode_identifiers df with e | ⟨dfx, ids⟩
  · exact SinkExt_refl s
  · dsimp only
    rcases hl : insertLoop "DSSTox" 12 s (where_notnull dfx).rows with ⟨s1, e1⟩
    have hc : s1.committed = s.committed := by
      have h2 := insertLoop_committed "DSSTox" 12 s (where_notnull dfx).rows
      rw [hl] at h2
      exact h2
    rcases e1 with _ | e1
    · dsimp only
      rcases hi : Identifier_import_data s1 ids with ⟨s2, e2⟩
      have hx : SinkExt s1 s2 := by
        have h3 := Identifier_ext s1 ids
        rw [hi] at h3
        exact h3
      rcases e2 with _ | e2
      · dsimp only
        exact SinkExt_trans ⟨[], by simp [hc]⟩ (SinkExt_trans hx (commitS_ext s2))
      · dsimp only
        exact SinkExt_trans ⟨[], by simp [hc]⟩ hx
    · dsimp only
      exact ⟨[], by simp [hc]⟩

theorem reportOutcome_fst (t : String) (p : Sink × Option PyErr) :
    (reportOutcome t p).1 = p.1 := by
  rcases p with ⟨s, e⟩
  rcases e with _ | e <;> rfl

set_option maxHeartbeats 1000000 in
theorem import_table_data_ext (t : String) (s : Sink) (df : DF) :
    SinkExt s (import_table_data t s df).1 := by
  unfold import_table_data
  split_ifs
  · rw [reportOutcome_fst]
    exact document_dictionary_ext s df
  · rw [reportOutcome_fst]
    exact loopThenCommit_ext "chemical_dictionary" 7 s df.rows
  · rw [reportOutcome_fst]
    exact loopThenCommit_ext "list_presence_dictionary" 4 s df.rows
  · rw [reportOutcome_fst]
    exact loopThenCommit_ext "PUC_dictionary" 7 s df.rows
  · rw [reportOutcome_fst]
    exact loopThenCommit_ext "functional_use_dictionary" 4 s df.rows
  · rw [reportOutcome_fst]
    exact DSSTox_ext s df
  · rw [reportOutcome_fst]
    exact loopThenCommit_ext "QSUR_data" 5 s df.rows
  · rw [reportOutcome_fst]
    exact loopThenCommit_ext "functional_use_data" 3 s df.rows
  · rw [reportOutcome_fst]
    exact product_composition_ext s df
  · rw [reportOutcome_fst]
    exact loopThenCommit_ext "list_presence_data" 3 s df.rows
  · rw [reportOutcome_fst]
    exact loopThenCommit_ext "HHE_data" 2 s df.rows
  · exact SinkExt_refl s

theorem importDFList_ext (t : String) (dfs : List DF) (s : Sink) :
    SinkExt s (importDFList t s dfs).1 := by
  induction dfs generalizing s with
  | nil => exact SinkExt_refl s
  | cons df dfs ih =>
    simp only [importDFList]
    rcases h1 : import_table_data t s (replace_empty_na_with_null df) with ⟨s1, l1, e⟩
    have hx : SinkExt s s1 := by
      have h2 := import_table_data_ext t s (replace_empty_na_with_null df)
      rw [h1] at h2
      exact h2
    rcases e with _ | e
    · dsimp only
      rcases h2 : importDFList t s1 dfs with ⟨s2, l2, e2⟩
      have hy : SinkExt s1 s2 := by
        have h3 := ih s1
        rw [h2] at h3
        exact h3
      dsimp only
      exact SinkExt_trans hx hy
    · dsimp only
      exact hx

theorem import_data_to_DB_loop_ext (data : List (String × List DF)) (s : Sink) :
    SinkExt s (import_data_to_DB_loop data s).1 := by
  induction data generalizing s with
  | nil => exact SinkExt_refl s
  | cons p rest ih =>
    rcases p with ⟨t, dfs⟩
    simp only [import_data_to_DB_loop]
    rcases h1 : importDFList t s dfs with ⟨s1, l1, e⟩
    have hx : SinkExt s s1 := by
      have h2 := importDFList_ext t dfs s
      rw [h1] at h2
      exact h2
    rcases e with _ | e
    · dsimp only
      rcases h2 : import_data_to_DB_loop rest s1 with ⟨s2, l2, x⟩
      have hy : SinkExt s1 s2 := by
        have h3 := ih s1
        rw [h2] at h3
        exact h3
      dsimp only
      exact SinkExt_trans hx hy
    · dsimp only
      rcases he : e.exitCode with _ | c
      · dsimp only
        rcases h2 : import_data_to_DB_loop rest s1 with ⟨s2, l2, x⟩
        have hy : SinkExt s1 s2 := by
          have h3 := ih s1
          rw [h2] at h3
          exact h3
        dsimp only
        exact SinkExt_trans hx hy
      · dsimp only
        exact hx

/-- C8: when the import of one table raises an ordinary exception, the
orchestrator logs the table name with the error and continues with exactly
the remaining tables from the sink the failure left, the failure never
escalates past the handler, and the rows committed before the failing
table stay committed (the committed list of the sink only ever grows). -/
theorem table_failure_isolated (t : String) (dfs : List DF)
    (rest : List (String × List DF)) (s s1 : Sink) (l1 : List LogEntry)
    (e : PyErr) (hfail : importDFList t s dfs = (s1, l1, some e))
    (hord : e.exitCode = none) :
    import_data_to_DB_loop ((t, dfs) :: rest) s =
      ((import_data_to_DB_loop rest s1).1,
       (l1 ++ [.failure t e]) ++ (import_data_to_DB_loop rest s1).2.1,
       (import_data_to_DB_loop rest s1).2.2)
    ∧ SinkExt s s1
    ∧ SinkExt s (import_data_to_DB_loop ((t, dfs) :: rest) s).1 := by
  have hx : SinkExt s s1 := by
    have h2 := importDFList_ext t dfs s
    rw [hfail] at h2
    exact h2
  have heq : import_data_to_DB_loop ((t, dfs) :: rest) s =
      ((import_data_to_DB_loop rest s1).1,
       (l1 ++ [.failure t e]) ++ (import_data_to_DB_loop rest s1).2.1,
       (import_data_to_DB_loop rest s1).2.2) := by
    simp only [import_data_to_DB_loop, hfail, hord]
  refine ⟨heq, hx, ?_⟩
  rw [heq]
  dsimp only
  have hy := import_data_to_DB_loop_ext rest s1
  exact SinkExt_trans hx hy

/-- C8 witness: a malformed HHE record set raises ProgrammingError, the
failure is logged with the table name, and the chemical-dictionary table
after it is still imported from the unchanged sink. -/
theorem table_failure_isolated_witness :
    import_data_to_DB_loop
        [("HHE_data", [hheBadDF]), ("chemical_dictionary", [chemGoodDF])] sink0 =
      ((import_data_to_DB_loop [("chemical_dictionary", [chemGoodDF])] sink0).1,
       ([] ++ [.failure "HHE_data" .programmingError]) ++
         (import_data_to_DB_loop [("chemical_dictionary", [chemGoodDF])] sink0).2.1,
       (import_data_to_DB_loop [("chemical_dictionary", [chemGoodDF])] sink0).2.2)
    ∧ SinkExt sink0 sink0
    ∧ SinkExt sink0 (import_data_to_DB_loop
        [("HHE_data", [hheBadDF]), ("chemical_dictionary", [chemGoodDF])] sink0).1 :=
  table_failure_isolated "HHE_data" [hheBadDF]
    [("chemical_dictionary", [chemGoodDF])] sink0 sink0 [] .programmingError
    (by decide) rfl

theorem insertLoop_ok (t : String) (ar : Nat) (s : Sink) (rows : List (List Val))
    (h : ∀ r ∈ rows, r.length = ar) :
    insertLoop t ar s rows = (appendAll t s rows, none) := by
  induction rows generalizing s with
  | nil => rfl
  | cons r rs ih =>
    have hr : r.length = ar := h r (by simp)
    simp only [insertLoop]
    rw [if_pos hr]
    exact ih (execIns t r s) (fun r2 h2 => h r2 (List.mem_cons_of_mem _ h2))

theorem idRowTuple_length (ids : List IdRow) :
    ∀ r ∈ ids.map idRowTuple, r.length = 3 := by
  intro r hr
  obtain ⟨ir, _, rfl⟩ := List.mem_map.mp hr
  rfl

/-- C2 counterexample: on a chemical-substance record set whose identifier
cell is the literal NA, the source pipeline (normalization first) raises
AttributeError inside the identifier explosion, while the order claimed by
the specification (transform first, normalization after) succeeds; the two
orders are therefore observably different and the claimed order is not the
one the code implements. -/
theorem norm_order_counterexample :
    (importDFList "DSSTox" sink0 [dssNAdf]).2.2 = some .attributeError
    ∧ (DSSTox_import_transform_first sink0 dssNAdf).2 = none
    ∧ (importDFList "DSSTox" sink0 [dssNAdf]).2.2 ≠
        (DSSTox_import_transform_first sink0 dssNAdf).2 := by
  exact ⟨by decide, by decide, by decide⟩

/-- C2 amended: null normalization runs once per table before the
table-specific transform, which therefore operates on the normalized form;
the rows then inserted and committed are exactly the transform of the
normalized record set, for each of the three transform-bearing tables. -/
theorem norm_before_transforms :
    (∀ (df d2 : DF) (s : Sink),
      convert_dates (replace_empty_na_with_null df) "doc_date" = .ok d2 →
      (∀ r ∈ d2.rows, r.length = 4) →
      importDFList "document_dictionary" s [df] =
        (commitS (appendAll "document_dictionary" s d2.rows),
         [.success "document_dictionary"], none))
    ∧ (∀ (df d2 : DF) (s : Sink),
      convert_compositions (replace_empty_na_with_null df) = .ok d2 →
      (∀ r ∈ d2.rows, r.length = 14) →
      importDFList "product_composition_data" s [df] =
        (commitS (appendAll "product_composition_data" s d2.rows),
         [.success "product_composition_data"], none))
    ∧ (∀ (df d2 : DF) (ids : List IdRow) (s : Sink),
      explode_identifiers (replace_empty_na_with_null df) = .ok (d2, ids) →
      (∀ r ∈ (where_notnull d2).rows, r.length = 12) →
      importDFList "DSSTox" s [df] =
        (commitS (commitS (appendAll "Identifier"
           (appendAll "DSSTox" s (where_notnull d2).rows) (ids.map idRowTuple))),
         [.success "DSSTox"], none)) := by
  refine ⟨?_, ?_, ?_⟩
  · intro df d2 s hconv harity
    simp only [importDFList, import_table_data, reportOutcome,
      document_dictionary_import_data, hconv, loopThenCommit,
      insertLoop_ok "document_dictionary" 4 s d2.rows harity, String.reduceEq,
      reduceIte, List.append_nil]
  · intro df d2 s hconv harity
    simp only [importDFList, import_table_data, reportOutcome,
      product_composition_data_import_data, hconv, loopThenCommit,
      insertLoop_ok "product_composition_data" 14 s d2.rows harity,
      String.reduceEq, reduceIte, List.append_nil]
  · intro df d2 ids s hexp harity
    simp only [importDFList, import_table_data, reportOutcome,
      DSSTox_import_data, hexp, Identifier_import_data, loopThenCommit,
      insertLoop_ok "DSSTox" 12 s (where_notnull d2).rows harity,
      insertLoop_ok "Identifier" 3 (appendAll "DSSTox" s (where_notnull d2).rows)
        (ids.map idRowTuple) (idRowTuple_length ids),
      String.reduceEq, reduceIte, List.append_nil]

/-- C2 amended witness: the document-dictionary clause applied to a
concrete record set whose date cell normalizes then canonicalizes. -/
theorem norm_before_transforms_witness :
    importDFList "document_dictionary" sink0
        [⟨["document_id", "title", "subtitle", "doc_date"],
          [[.vStr "d1", .vStr "t", .vStr "NA", .vStr "02-01-2020"]]⟩] =
      (commitS (appendAll "document_dictionary" sink0
         [[.vStr "d1", .vStr "t", .vNull, .vStr "2020-01-02"]]),
       [.success "document_dictionary"], none) := by
  have h := norm_before_transforms.1
    ⟨["document_id", "title", "subtitle", "doc_date"],
      [[.vStr "d1", .vStr "t", .vStr "NA", .vStr "02-01-2020"]]⟩
    ⟨["document_id", "title", "subtitle", "doc_date"],
      [[.vStr "d1", .vStr "t", .vNull, .vStr "2020-01-02"]]⟩
    sink0 (by decide) (by decide)
  exact h

/-- C1: the load phase imports the tables in the key order built by
parse_file_paths, for every data directory: DSSTox comes first, before
every dictionary, and the list-presence fact table comes before the
list-presence dictionary; extract_data and the orchestrator both preserve
that order, as the success log of a full demonstration run shows.  This
contradicts the dependency order the specification declares. -/
theorem load_order_bug :
    importOrder =
      ["DSSTox", "document_dictionary", "chemical_dictionary",
       "list_presence_data", "PUC_dictionary", "functional_use_dictionary",
       "QSUR_data", "functional_use_data", "product_composition_data",
       "list_presence_dictionary", "HHE_data"]
    ∧ (∀ dir : String, (parse_file_paths dir).map Prod.fst = importOrder)
    ∧ (extract_data (fun _ => ⟨["a"], [[.vStr "x"]]⟩)
        (parse_file_paths "data")).map (fun l => l.map Prod.fst) =
        some importOrder
    ∧ demoData.map Prod.fst = importOrder
    ∧ (import_data_to_DB_loop demoData sink0).2.1 =
        importOrder.map LogEntry.success
    ∧ posOf "list_presence_data" importOrder <
        posOf "list_presence_dictionary" importOrder
    ∧ posOf "DSSTox" importOrder < posOf "document_dictionary" importOrder
    ∧ posOf "DSSTox" importOrder < posOf "chemical_dictionary" importOrder
    ∧ posOf "DSSTox" importOrder < posOf "PUC_dictionary" importOrder
    ∧ posOf "DSSTox" importOrder < posOf "functional_use_dictionary" importOrder
    ∧ posOf "DSSTox" importOrder < posOf "list_presence_dictionary" importOrder := by
  refine ⟨by decide, ?_, by decide, by decide, by decide, by decide, by decide,
    by decide, by decide, by decide, by decide⟩
  intro dir
  rfl

end CPDSSTox
